import Mathlib

/-!
Shallow embedding of `ChLinkDistance` (src/src/chrono/physics/ChLinkDistance.cpp)
and the scalar constraint primitive it drives, with theorems checking the
natural-language specification against the code.

Machine doubles are modelled by real numbers; global solver vectors
(ChVectorDynamic) are modelled as total functions from indices to reals.
State-mutating member functions become functions from the element state to a
new state (returning the mutated caller-supplied vector where the C++ writes
into a reference argument).
-/

namespace ChronoSpec

/-- The three constraint modes of ChLinkDistance (ChLinkDistance.h). -/
inductive Mode where
  | BILATERAL
  | UNILATERAL_MAXDISTANCE
  | UNILATERAL_MINDISTANCE
deriving DecidableEq

/-- Modes of the scalar constraint primitive (eChConstraintMode in
ChConstraint.h): LOCK is bilateral, UNILATERAL is sign-restricted. -/
inductive eChConstraintMode where
  | CONSTRAINT_FREE
  | CONSTRAINT_LOCK
  | CONSTRAINT_UNILATERAL
  | CONSTRAINT_FRIC
deriving DecidableEq

/-- A 3-vector of reals (ChVector<double>). -/
structure ChVector where
  x : ℝ
  y : ℝ
  z : ℝ

instance : Add ChVector := ⟨fun a b => ⟨a.x + b.x, a.y + b.y, a.z + b.z⟩⟩

instance : Sub ChVector := ⟨fun a b => ⟨a.x - b.x, a.y - b.y, a.z - b.z⟩⟩

instance : Neg ChVector := ⟨fun a => ⟨-a.x, -a.y, -a.z⟩⟩

instance : SMul ℝ ChVector := ⟨fun c a => ⟨c * a.x, c * a.y, c * a.z⟩⟩

/-- The null vector VNULL = (0,0,0). -/
def VNULL : ChVector := ⟨0, 0, 0⟩

/-- Dot product of two 3-vectors. -/
def ChVector.dot (a b : ChVector) : ℝ := a.x * b.x + a.y * b.y + a.z * b.z

/-- Cross product Vcross(a, b). -/
def Vcross (a b : ChVector) : ChVector :=
  ⟨a.y * b.z - a.z * b.y, a.z * b.x - a.x * b.z, a.x * b.y - a.y * b.x⟩

/-- Euclidean length of a 3-vector (ChVector::Length). -/
noncomputable def ChVector.Length (v : ChVector) : ℝ :=
  Real.sqrt (v.x ^ 2 + v.y ^ 2 + v.z ^ 2)

/-- Modelled from the spec: `Vnorm` (the repository's vector normalization,
defined outside src/) returns the unit vector along its argument.  The spec
requires that normalizing a zero vector must not propagate a not-a-number
value; here the zero-vector case falls back to the zero vector (a NaN-free
value), via the convention that real division by zero is zero. -/
noncomputable def Vnorm (v : ChVector) : ChVector := (1 / v.Length) • v

/-- A 3x3 matrix, stored by rows (ChMatrix33); used as a body rotation. -/
structure ChMatrix33 where
  row1 : ChVector
  row2 : ChVector
  row3 : ChVector

/-- Matrix-vector product. -/
def ChMatrix33.mul (A : ChMatrix33) (v : ChVector) : ChVector :=
  ⟨A.row1.dot v, A.row2.dot v, A.row3.dot v⟩

/-- Transposed-matrix-vector product (A^T v). -/
def ChMatrix33.tmul (A : ChMatrix33) (v : ChVector) : ChVector :=
  v.x • A.row1 + v.y • A.row2 + v.z • A.row3

/-- The identity rotation. -/
def ident33 : ChMatrix33 := ⟨⟨1, 0, 0⟩, ⟨0, 1, 0⟩, ⟨0, 0, 1⟩⟩

/-- A rigid body frame (ChBodyFrame): a position and a rotation matrix.
The element reads poses through the three transform functions below. -/
structure ChBodyFrame where
  pos : ChVector
  A : ChMatrix33

/-- ChFrame::TransformPointLocalToParent: world point of a local point. -/
def ChBodyFrame.TransformPointLocalToParent (b : ChBodyFrame) (p : ChVector) : ChVector :=
  b.pos + b.A.mul p

/-- ChFrame::TransformPointParentToLocal: local point of a world point. -/
def ChBodyFrame.TransformPointParentToLocal (b : ChBodyFrame) (p : ChVector) : ChVector :=
  b.A.tmul (p - b.pos)

/-- ChFrame::TransformDirectionParentToLocal: local direction of a world direction. -/
def ChBodyFrame.TransformDirectionParentToLocal (b : ChBodyFrame) (d : ChVector) : ChVector :=
  b.A.tmul d

/-- A dynamic global vector (ChVectorDynamic), modelled as index → real. -/
def ChVectorDyn : Type := ℕ → ℝ

/-- Write value x at index i of a global vector, leaving the rest unchanged. -/
def upd (f : ChVectorDyn) (i : ℕ) (x : ℝ) : ChVectorDyn :=
  fun j => if j = i then x else f j

/-- ChMax on doubles. -/
def ChMax (a b : ℝ) : ℝ := max a b

/-- ChMin on doubles. -/
def ChMin (a b : ℝ) : ℝ := min a b

/-- The scalar constraint primitive (ChConstraintTwoBodiesX / Cx): one
Jacobian row split in two 6-wide halves, a bias accumulator b_i, a Lagrange
multiplier l_i, and a constraint mode.  off_a and off_b locate the two
bodies' variable blocks inside global vectors (modelled from the spec's
description of the residual accumulation; the primitive itself lives outside
src/). -/
structure ChConstraintTwoBodies where
  Cq_a : Fin 6 → ℝ
  Cq_b : Fin 6 → ℝ
  l_i : ℝ
  b_i : ℝ
  cmode : eChConstraintMode
  off_a : ℕ
  off_b : ℕ

/-- Add g (6 entries) into f starting at index base. -/
def addAt (f : ChVectorDyn) (base : ℕ) (g : Fin 6 → ℝ) : ChVectorDyn :=
  fun i => if h : base ≤ i ∧ i - base < 6 then f i + g ⟨i - base, h.2⟩ else f i

/-- Modelled from the spec: ChConstraint::MultiplyTandAdd (outside src/) adds
the transposed Jacobian row times the factor l into the caller's residual
vector, at the two bodies' variable offsets. -/
def ChConstraintTwoBodies.MultiplyTandAdd (cx : ChConstraintTwoBodies)
    (R : ChVectorDyn) (l : ℝ) : ChVectorDyn :=
  addAt (addAt R cx.off_a (fun k => l * cx.Cq_a k)) cx.off_b (fun k => l * cx.Cq_b k)

/-- State of a ChLinkDistance element.  Body1/Body2 hold the referenced
bodies' current poses (the C++ stores pointers and reads the live pose).
active models ChLinkBase::IsActive (modelled from the spec: an element may be
excluded from a simulation phase; the flag is outside src/). -/
structure ChLinkDistance where
  pos1 : ChVector
  pos2 : ChVector
  distance : ℝ
  curr_dist : ℝ
  mode : Mode
  mode_sign : ℝ
  C : ℝ
  Cx : ChConstraintTwoBodies
  Body1 : ChBodyFrame
  Body2 : ChBodyFrame
  react_force : ChVector
  react_torque : ChVector
  ChTime : ℝ
  active : Bool

/-- ChLinkDistance::SetMode: stores the mode, recomputes mode_sign
(-1 iff UNILATERAL_MAXDISTANCE), and sets the primitive's mode
(LOCK iff BILATERAL, else UNILATERAL). -/
def ChLinkDistance.SetMode (st : ChLinkDistance) (m : Mode) : ChLinkDistance :=
  { st with
    mode := m
    mode_sign := if m = Mode.UNILATERAL_MAXDISTANCE then -1 else 1
    Cx := { st.Cx with
            cmode := if m = Mode.BILATERAL then eChConstraintMode.CONSTRAINT_LOCK
                     else eChConstraintMode.CONSTRAINT_UNILATERAL } }

/-- ChLinkDistance::ChLinkDistance(): pos1 = pos2 = VNULL, distance = 0,
curr_dist = 0, then SetMode(BILATERAL).  Remaining members take the given
defaults (bodies unbound until Initialize). -/
def ChLinkDistance.mk0 (cx : ChConstraintTwoBodies) (b1 b2 : ChBodyFrame)
    (act : Bool) : ChLinkDistance :=
  ChLinkDistance.SetMode
    { pos1 := VNULL, pos2 := VNULL, distance := 0, curr_dist := 0
      mode := Mode.BILATERAL, mode_sign := 1, C := 0, Cx := cx
      Body1 := b1, Body2 := b2, react_force := VNULL, react_torque := VNULL
      ChTime := 0, active := act }
    Mode.BILATERAL

/-- Body of ChLinkDistance::Initialize once the two body handles have been
dereferenced: sets the mode, binds the bodies, converts world anchor points
to local frames when pos_are_relative is false, measures the separation,
fixes the target distance (measured when auto_distance), computes the initial
violation C[0], and returns true. -/
noncomputable def ChLinkDistance.InitializeCore (st : ChLinkDistance)
    (mbody1 mbody2 : ChBodyFrame) (pos_are_relative : Bool)
    (mpos1 mpos2 : ChVector) (auto_distance : Bool) (mdistance : ℝ)
    (m : Mode) : ChLinkDistance × Bool :=
  let st1 := st.SetMode m
  let st2 := { st1 with Body1 := mbody1, Body2 := mbody2 }
  let p1 := if pos_are_relative then mpos1 else mbody1.TransformPointParentToLocal mpos1
  let p2 := if pos_are_relative then mpos2 else mbody2.TransformPointParentToLocal mpos2
  let delta_pos := mbody1.TransformPointLocalToParent p1 - mbody2.TransformPointLocalToParent p2
  let cd := delta_pos.Length
  let d := if auto_distance then cd else mdistance
  ({ st2 with pos1 := p1, pos2 := p2, curr_dist := cd, distance := d
              C := st2.mode_sign * (cd - d) }, true)

/-- ChLinkDistance::Initialize takes shared pointers to the two bodies,
modelled as Option.  The code performs no null check: it stores the raw
pointers and immediately calls Body1->Variables() and Body2->Variables(), so
a null handle is dereferenced and the call never returns a value — modelled
as none.  With non-null handles the body of the function runs (InitializeCore). -/
noncomputable def ChLinkDistance.Initialize (st : ChLinkDistance)
    (mbody1 mbody2 : Option ChBodyFrame) (pos_are_relative : Bool)
    (mpos1 mpos2 : ChVector) (auto_distance : Bool) (mdistance : ℝ)
    (m : Mode) : Option (ChLinkDistance × Bool) :=
  match mbody1, mbody2 with
  | some b1, some b2 =>
      some (st.InitializeCore b1 b2 pos_are_relative mpos1 mpos2 auto_distance mdistance m)
  | _, _ => none

/-- Pack a translational 3-vector and a rotational 3-vector into the 6
entries of one half of the Jacobian row. -/
def vec6 (p r : ChVector) : Fin 6 → ℝ := ![p.x, p.y, p.z, r.x, r.y, r.z]

/-- ChLinkDistance::Update: advances time (ChLink::Update), recomputes the
current distance, the unit direction, the 12 Jacobian entries (all scaled by
mode_sign) and the violation C[0] = mode_sign * (curr_dist - distance). -/
noncomputable def ChLinkDistance.Update (st : ChLinkDistance) (mytime : ℝ) : ChLinkDistance :=
  let delta_pos := st.Body1.TransformPointLocalToParent st.pos1 -
                   st.Body2.TransformPointLocalToParent st.pos2
  let cd := delta_pos.Length
  let dirW := Vnorm delta_pos
  let dirB2 := st.Body2.TransformDirectionParentToLocal dirW
  let dirB1 := st.Body1.TransformDirectionParentToLocal dirW
  let CqB1pos := dirW
  let CqB2pos := -dirW
  let CqB1rot := -(Vcross dirB1 st.pos1)
  let CqB2rot := Vcross dirB2 st.pos2
  { st with
    ChTime := mytime
    curr_dist := cd
    Cx := { st.Cx with
            Cq_a := fun k => st.mode_sign * vec6 CqB1pos CqB1rot k
            Cq_b := fun k => st.mode_sign * vec6 CqB2pos CqB2rot k }
    C := st.mode_sign * (cd - st.distance) }

/-- ChLinkDistance::IntStateGatherReactions: L(off_L) = -react_force.x. -/
def ChLinkDistance.IntStateGatherReactions (st : ChLinkDistance) (off_L : ℕ)
    (L : ChVectorDyn) : ChVectorDyn :=
  upd L off_L (-st.react_force.x)

/-- ChLinkDistance::IntStateScatterReactions: react_force = (-L(off_L),0,0),
react_torque = VNULL. -/
def ChLinkDistance.IntStateScatterReactions (st : ChLinkDistance) (off_L : ℕ)
    (L : ChVectorDyn) : ChLinkDistance :=
  { st with react_force := ⟨-(L off_L), 0, 0⟩, react_torque := VNULL }

/-- ChLinkDistance::IntLoadResidual_CqL: if active, R += Cq^T * (L(off_L)*c). -/
def ChLinkDistance.IntLoadResidual_CqL (st : ChLinkDistance) (off_L : ℕ)
    (R : ChVectorDyn) (L : ChVectorDyn) (c : ℝ) : ChVectorDyn :=
  if st.active then st.Cx.MultiplyTandAdd R (L off_L * c) else R

/-- ChLinkDistance::IntLoadConstraint_C: if active, adds c*C[0] into
Qc(off_L), clamped when do_clamp: symmetric clamp to
[-recovery_clamp, recovery_clamp] in BILATERAL mode, and
ChMax(c*C[0], -recovery_clamp) in the unilateral modes. -/
def ChLinkDistance.IntLoadConstraint_C (st : ChLinkDistance) (off_L : ℕ)
    (Qc : ChVectorDyn) (c : ℝ) (do_clamp : Bool) (recovery_clamp : ℝ) : ChVectorDyn :=
  if !st.active then Qc
  else if do_clamp then
    if st.mode = Mode.BILATERAL then
      upd Qc off_L (Qc off_L + ChMin (ChMax (c * st.C) (-recovery_clamp)) recovery_clamp)
    else
      upd Qc off_L (Qc off_L + ChMax (c * st.C) (-recovery_clamp))
  else
    upd Qc off_L (Qc off_L + c * st.C)

/-- ChLinkDistance::IntToDescriptor: if active, copies L(off_L) into the
primitive's multiplier and Qc(off_L) into its bias. -/
def ChLinkDistance.IntToDescriptor (st : ChLinkDistance) (off_L : ℕ)
    (L Qc : ChVectorDyn) : ChLinkDistance :=
  if st.active then
    { st with Cx := { st.Cx with l_i := L off_L, b_i := Qc off_L } }
  else st

/-- ChLinkDistance::IntFromDescriptor: if active, writes the primitive's
multiplier back into L(off_L). -/
def ChLinkDistance.IntFromDescriptor (st : ChLinkDistance) (off_L : ℕ)
    (L : ChVectorDyn) : ChVectorDyn :=
  if st.active then upd L off_L st.Cx.l_i else L

/-- ChLinkDistance::InjectConstraints: if active, inserts the primitive into
the descriptor's constraint set (modelled as a list). -/
def ChLinkDistance.InjectConstraints (st : ChLinkDistance)
    (descr : List ChConstraintTwoBodies) : List ChConstraintTwoBodies :=
  if st.active then descr ++ [st.Cx] else descr

/-- ChLinkDistance::ConstraintsBiReset: sets the primitive's bias to 0.
Note: the code has no IsActive() gate here. -/
def ChLinkDistance.ConstraintsBiReset (st : ChLinkDistance) : ChLinkDistance :=
  { st with Cx := { st.Cx with b_i := 0 } }

/-- ChLinkDistance::ConstraintsBiLoad_C: if active, adds factor*C[0] into the
primitive's bias, clamped symmetrically to [-recovery_clamp, recovery_clamp]
when do_clamp (for every mode; there is no mode branch here). -/
def ChLinkDistance.ConstraintsBiLoad_C (st : ChLinkDistance)
    (factor recovery_clamp : ℝ) (do_clamp : Bool) : ChLinkDistance :=
  if !st.active then st
  else if do_clamp then
    { st with Cx := { st.Cx with
        b_i := st.Cx.b_i + ChMin (ChMax (factor * st.C) (-recovery_clamp)) recovery_clamp } }
  else
    { st with Cx := { st.Cx with b_i := st.Cx.b_i + factor * st.C } }

/-- ChLinkDistance::ConstraintsFetch_react: react_force =
(-l_i * factor, 0, 0), react_torque = VNULL.  Note: the code has no
IsActive() gate here. -/
def ChLinkDistance.ConstraintsFetch_react (st : ChLinkDistance) (factor : ℝ) : ChLinkDistance :=
  { st with react_force := ⟨-st.Cx.l_i * factor, 0, 0⟩, react_torque := VNULL }

/-- The current world-frame separation distance of the two anchors, computed
from the body poses stored in the state (the quantity `curr_dist` is
recomputed from on each Update). -/
noncomputable def currDistOf (st : ChLinkDistance) : ℝ :=
  (st.Body1.TransformPointLocalToParent st.pos1 -
   st.Body2.TransformPointLocalToParent st.pos2).Length

end ChronoSpec

namespace ChronoSpec

/-- A zeroed constraint primitive used to build sample states. -/
def cx0 : ChConstraintTwoBodies :=
  ⟨fun _ => 0, fun _ => 0, 0, 0, eChConstraintMode.CONSTRAINT_LOCK, 0, 6⟩

/-- A body frame sitting at a given world position with identity rotation. -/
def bodyAt (p : ChVector) : ChBodyFrame := ⟨p, ident33⟩

/-- A body frame at the world origin with identity rotation. -/
def body0 : ChBodyFrame := bodyAt VNULL

/-- A sample element state: both bodies at the origin, both anchors at the
body origins, target distance 1, with the given mode, activity flag,
violation value, bias, multiplier and previous first-half Jacobian entries. -/
def sampleSt (m : Mode) (act : Bool) (Cval bi li cqa : ℝ) : ChLinkDistance :=
  { pos1 := VNULL, pos2 := VNULL, distance := 1, curr_dist := 1
    mode := m
    mode_sign := if m = Mode.UNILATERAL_MAXDISTANCE then -1 else 1
    C := Cval
    Cx := ⟨fun _ => cqa, fun _ => 0, li, bi, eChConstraintMode.CONSTRAINT_UNILATERAL, 0, 6⟩
    Body1 := body0, Body2 := body0
    react_force := VNULL, react_torque := VNULL
    ChTime := 0, active := act }

end ChronoSpec

namespace ChronoSpec

/-- Unfolding lemma for vector addition. -/
theorem vadd_def (a b : ChVector) : a + b = ⟨a.x + b.x, a.y + b.y, a.z + b.z⟩ := rfl

/-- Unfolding lemma for vector subtraction. -/
theorem vsub_def (a b : ChVector) : a - b = ⟨a.x - b.x, a.y - b.y, a.z - b.z⟩ := rfl

/-- Unfolding lemma for vector negation. -/
theorem vneg_def (a : ChVector) : -a = ⟨-a.x, -a.y, -a.z⟩ := rfl

/-- Unfolding lemma for scalar multiplication. -/
theorem vsmul_def (c : ℝ) (a : ChVector) : c • a = ⟨c * a.x, c * a.y, c * a.z⟩ := rfl

/-- Claim C7: immediately after SetMode(m) — and hence after the constructor
and after Initialize, which call SetMode — mode_sign is -1 iff m is
UNILATERAL_MAXDISTANCE and +1 otherwise, and the primitive's mode is
CONSTRAINT_LOCK iff m is BILATERAL and CONSTRAINT_UNILATERAL otherwise. -/
theorem C7_mode_consistency :
    (∀ (st : ChLinkDistance) (m : Mode),
      (st.SetMode m).mode = m ∧
      ((st.SetMode m).mode_sign = -1 ↔ m = Mode.UNILATERAL_MAXDISTANCE) ∧
      ((st.SetMode m).mode_sign = 1 ↔ m ≠ Mode.UNILATERAL_MAXDISTANCE) ∧
      ((st.SetMode m).Cx.cmode = eChConstraintMode.CONSTRAINT_LOCK ↔ m = Mode.BILATERAL) ∧
      ((st.SetMode m).Cx.cmode = eChConstraintMode.CONSTRAINT_UNILATERAL ↔
        m ≠ Mode.BILATERAL)) ∧
    (∀ (cx : ChConstraintTwoBodies) (b1 b2 : ChBodyFrame) (act : Bool),
      (ChLinkDistance.mk0 cx b1 b2 act).mode_sign = 1 ∧
      (ChLinkDistance.mk0 cx b1 b2 act).Cx.cmode = eChConstraintMode.CONSTRAINT_LOCK) ∧
    (∀ (st : ChLinkDistance) (b1 b2 : ChBodyFrame) (rel : Bool) (p1 p2 : ChVector)
       (auto : Bool) (md : ℝ) (m : Mode),
      ((st.InitializeCore b1 b2 rel p1 p2 auto md m).1.mode_sign = -1 ↔
        m = Mode.UNILATERAL_MAXDISTANCE) ∧
      ((st.InitializeCore b1 b2 rel p1 p2 auto md m).1.Cx.cmode =
          eChConstraintMode.CONSTRAINT_LOCK ↔ m = Mode.BILATERAL)) := by
  refine ⟨fun st m => ?_, fun cx b1 b2 act => ?_, fun st b1 b2 rel p1 p2 auto md m => ?_⟩
  · cases m <;> simp [ChLinkDistance.SetMode] <;> norm_num
  · simp [ChLinkDistance.mk0, ChLinkDistance.SetMode]
  · cases m <;>
      simp [ChLinkDistance.InitializeCore, ChLinkDistance.SetMode] <;> norm_num

/-- Claim C10: scattering a multiplier value with IntStateScatterReactions
and then gathering with IntStateGatherReactions at the same offset writes
back exactly the scattered value (the two negations cancel); neither
function is gated on activity. -/
theorem C10_scatter_gather_roundtrip :
    ∀ (st : ChLinkDistance) (off : ℕ) (L L2 : ChVectorDyn),
      (st.IntStateScatterReactions off L).IntStateGatherReactions off L2 off = L off := by
  intro st off L L2
  simp [ChLinkDistance.IntStateScatterReactions, ChLinkDistance.IntStateGatherReactions, upd]

/-- Claim C8: for an active element, IntToDescriptor stores L(off) into the
primitive's multiplier, and an immediately following IntFromDescriptor at
the same offset (no intervening mutation) writes that same value back. -/
theorem C8_push_pull_roundtrip :
    ∀ (st : ChLinkDistance) (off : ℕ) (L Qc L2 : ChVectorDyn),
      st.active = true →
      (st.IntToDescriptor off L Qc).IntFromDescriptor off L2 off = L off := by
  intro st off L Qc L2 h
  simp [ChLinkDistance.IntToDescriptor, ChLinkDistance.IntFromDescriptor, h, upd]

/-- Witness for C8 at a concrete active state and multiplier 3. -/
theorem C8_witness :
    (sampleSt Mode.BILATERAL true 0 0 0 0).active = true ∧
    ((sampleSt Mode.BILATERAL true 0 0 0 0).IntToDescriptor 2 (fun _ => 3)
        (fun _ => 0)).IntFromDescriptor 2 (fun _ => 0) 2 = 3 := by
  refine ⟨rfl, ?_⟩
  exact C8_push_pull_roundtrip (sampleSt Mode.BILATERAL true 0 0 0 0) 2
    (fun _ => 3) (fun _ => 0) (fun _ => 0) rfl

/-- Claim C6: after every Update (and after Initialize), the stored
violation C equals mode_sign * (currentDistance - distance), where
currentDistance is the Euclidean norm of the world-frame separation of the
two anchors recomputed from the body poses. -/
theorem C6_violation_formula :
    (∀ (st : ChLinkDistance) (t : ℝ),
      (st.Update t).C =
        (st.Update t).mode_sign * (currDistOf (st.Update t) - (st.Update t).distance)) ∧
    (∀ (st : ChLinkDistance) (b1 b2 : ChBodyFrame) (rel : Bool) (p1 p2 : ChVector)
       (auto : Bool) (md : ℝ) (m : Mode),
      (st.InitializeCore b1 b2 rel p1 p2 auto md m).1.C =
        (st.InitializeCore b1 b2 rel p1 p2 auto md m).1.mode_sign *
          (currDistOf (st.InitializeCore b1 b2 rel p1 p2 auto md m).1 -
           (st.InitializeCore b1 b2 rel p1 p2 auto md m).1.distance)) := by
  constructor
  · intro st t
    simp [ChLinkDistance.Update, currDistOf]
  · intro st b1 b2 rel p1 p2 auto md m
    simp [ChLinkDistance.InitializeCore, currDistOf, ChLinkDistance.SetMode]

end ChronoSpec

namespace ChronoSpec

/-- Claim C9: Initialize with auto_distance = true sets the target distance
to the measured world-frame separation and leaves the violation exactly
zero; in particular with bodies at (0,0,0) and (2,0,0), anchors at the body
origins, the target distance is 2 and the violation is 0. -/
theorem C9_auto_distance :
    (∀ (st : ChLinkDistance) (b1 b2 : ChBodyFrame) (rel : Bool) (p1 p2 : ChVector)
       (md : ℝ) (m : Mode),
      (st.InitializeCore b1 b2 rel p1 p2 true md m).1.distance =
        currDistOf (st.InitializeCore b1 b2 rel p1 p2 true md m).1 ∧
      (st.InitializeCore b1 b2 rel p1 p2 true md m).1.C = 0) ∧
    (((sampleSt Mode.BILATERAL true 0 0 0 0).InitializeCore
        (bodyAt ⟨0, 0, 0⟩) (bodyAt ⟨2, 0, 0⟩) true VNULL VNULL true 0
        Mode.BILATERAL).1.distance = 2 ∧
     ((sampleSt Mode.BILATERAL true 0 0 0 0).InitializeCore
        (bodyAt ⟨0, 0, 0⟩) (bodyAt ⟨2, 0, 0⟩) true VNULL VNULL true 0
        Mode.BILATERAL).1.C = 0) := by
  constructor
  · intro st b1 b2 rel p1 p2 md m
    constructor
    · simp [ChLinkDistance.InitializeCore, currDistOf]
    · simp [ChLinkDistance.InitializeCore]
  · constructor
    · simp [ChLinkDistance.InitializeCore, ChLinkDistance.SetMode, bodyAt,
            ChBodyFrame.TransformPointLocalToParent, ChMatrix33.mul, ident33,
            ChVector.dot, VNULL, ChVector.Length, sampleSt, vadd_def, vsub_def]
    · simp [ChLinkDistance.InitializeCore]

end ChronoSpec

namespace ChronoSpec

/-- Concrete active element in a one-sided mode whose scaled violation is 10. -/
def oneSidedSt : ChLinkDistance := sampleSt Mode.UNILATERAL_MINDISTANCE true 10 0 0 0

/-- Claim C1 is false on the code: in a one-sided mode with recovery limit
1/2 and scale*violation = 10, IntLoadConstraint_C adds 10 to the violation
vector, not 1/2 — the one-sided branch computes ChMax(c*C, -recovery_clamp),
a lower clamp at -recovery_clamp, with no upper clamp at +recovery_clamp. -/
theorem C1_counterexample :
    oneSidedSt.IntLoadConstraint_C 0 (fun _ => 0) 1 true (1 / 2) 0 = 10 ∧
    ((10 : ℝ) ≠ 1 / 2) := by
  constructor
  · simp [oneSidedSt, sampleSt, ChLinkDistance.IntLoadConstraint_C, ChMax, upd]
    norm_num [max_def]
  · norm_num

/-- Claim C1 amended: for every active element in a one-sided mode,
IntLoadConstraint_C with do_clamp adds max(c*C, -recovery_clamp) — a lower
clamp at -recovery_clamp only, with no upper clamp — into the entry at
off_L, leaving every other entry unchanged. -/
theorem C1_onesided_lower_clamp :
    ∀ (st : ChLinkDistance) (off : ℕ) (Qc : ChVectorDyn) (c rc : ℝ),
      st.active = true → st.mode ≠ Mode.BILATERAL →
      (st.IntLoadConstraint_C off Qc c true rc off = Qc off + max (c * st.C) (-rc) ∧
       ∀ j, j ≠ off → st.IntLoadConstraint_C off Qc c true rc j = Qc j) := by
  intro st off Qc c rc ha hm
  constructor
  · simp [ChLinkDistance.IntLoadConstraint_C, ha, hm, ChMax, upd]
  · intro j hj
    simp [ChLinkDistance.IntLoadConstraint_C, ha, hm, ChMax, upd, hj]

/-- Witness for C1 at the concrete one-sided state. -/
theorem C1_witness :
    oneSidedSt.active = true ∧ oneSidedSt.mode ≠ Mode.BILATERAL ∧
    oneSidedSt.IntLoadConstraint_C 0 (fun _ => 0) 1 true (1 / 2) 0 =
      (fun _ : ℕ => (0 : ℝ)) 0 + max (1 * oneSidedSt.C) (-(1 / 2)) := by
  refine ⟨rfl, by simp [oneSidedSt, sampleSt], ?_⟩
  exact (C1_onesided_lower_clamp oneSidedSt 0 (fun _ => 0) 1 (1 / 2) rfl
    (by simp [oneSidedSt, sampleSt])).1

/-- Claim C2 is false on the code: with the same active one-sided element
(violation 10, recovery limit 1/2, factor 1), ConstraintsBiLoad_C adds 1/2
to the bias while IntLoadConstraint_C adds 10 to the violation vector: the
two functions do not share one mode-dependent clamp policy. -/
theorem C2_counterexample :
    (oneSidedSt.ConstraintsBiLoad_C 1 (1 / 2) true).Cx.b_i = 1 / 2 ∧
    oneSidedSt.IntLoadConstraint_C 0 (fun _ => 0) 1 true (1 / 2) 0 = 10 ∧
    ((1 / 2 : ℝ) ≠ 10) := by
  refine ⟨?_, ?_, by norm_num⟩
  · simp [oneSidedSt, sampleSt, ChLinkDistance.ConstraintsBiLoad_C, ChMin, ChMax]
    norm_num [max_def, min_def]
  · simp [oneSidedSt, sampleSt, ChLinkDistance.IntLoadConstraint_C, ChMax, upd]
    norm_num [max_def]

/-- Claim C2 amended: ConstraintsBiLoad_C with do_clamp applies the
symmetric clamp min(max(factor*C, -recovery_clamp), recovery_clamp) for
every mode (it has no mode branch); it therefore agrees with the clamp of
IntLoadConstraint_C in BILATERAL mode and without clamping, but not in the
one-sided modes. -/
theorem C2_bias_clamp_always_symmetric :
    ∀ (st : ChLinkDistance) (factor rc : ℝ),
      st.active = true →
      ((st.ConstraintsBiLoad_C factor rc true).Cx.b_i =
        st.Cx.b_i + min (max (factor * st.C) (-rc)) rc ∧
       (st.mode = Mode.BILATERAL →
        ∀ (off : ℕ) (Qc : ChVectorDyn),
          st.IntLoadConstraint_C off Qc factor true rc off - Qc off =
            (st.ConstraintsBiLoad_C factor rc true).Cx.b_i - st.Cx.b_i) ∧
       (∀ (off : ℕ) (Qc : ChVectorDyn),
          st.IntLoadConstraint_C off Qc factor false rc off - Qc off =
            (st.ConstraintsBiLoad_C factor rc false).Cx.b_i - st.Cx.b_i)) := by
  intro st factor rc ha
  refine ⟨?_, ?_, ?_⟩
  · simp [ChLinkDistance.ConstraintsBiLoad_C, ha, ChMin, ChMax]
  · intro hm off Qc
    simp [ChLinkDistance.ConstraintsBiLoad_C, ChLinkDistance.IntLoadConstraint_C,
          ha, hm, ChMin, ChMax, upd]
  · intro off Qc
    simp [ChLinkDistance.ConstraintsBiLoad_C, ChLinkDistance.IntLoadConstraint_C,
          ha, ChMin, ChMax, upd]

/-- Witness for C2 at a concrete active bilateral state with violation 10. -/
theorem C2_witness :
    (sampleSt Mode.BILATERAL true 10 0 0 0).active = true ∧
    ((sampleSt Mode.BILATERAL true 10 0 0 0).ConstraintsBiLoad_C 1 (1 / 2) true).Cx.b_i =
      (sampleSt Mode.BILATERAL true 10 0 0 0).Cx.b_i +
        min (max (1 * (sampleSt Mode.BILATERAL true 10 0 0 0).C) (-(1 / 2))) (1 / 2) := by
  exact ⟨rfl, (C2_bias_clamp_always_symmetric (sampleSt Mode.BILATERAL true 10 0 0 0)
    1 (1 / 2) rfl).1⟩

/-- Concrete inactive element with a nonzero bias and multiplier. -/
def inactiveSt : ChLinkDistance := sampleSt Mode.BILATERAL false 0 5 4 0

/-- Claim C5 is false on the code: ConstraintsBiReset has no activity gate —
on an inactive element with bias 5 it still zeroes the bias, mutating the
element's state (and ConstraintsFetch_react likewise overwrites the
reaction force, from multiplier 4 and factor 2 to -8). -/
theorem C5_counterexample :
    inactiveSt.active = false ∧
    inactiveSt.Cx.b_i = 5 ∧
    inactiveSt.ConstraintsBiReset.Cx.b_i = 0 ∧
    ((0 : ℝ) ≠ 5) ∧
    (inactiveSt.ConstraintsFetch_react 2).react_force.x = -8 ∧
    inactiveSt.react_force.x = 0 := by
  refine ⟨rfl, rfl, rfl, by norm_num, ?_, rfl⟩
  simp [inactiveSt, sampleSt, ChLinkDistance.ConstraintsFetch_react]
  norm_num

/-- Claim C5 amended: on an inactive element the gated bookkeeping
operations (IntLoadResidual_CqL, IntLoadConstraint_C, IntToDescriptor,
IntFromDescriptor, InjectConstraints, ConstraintsBiLoad_C) are no-ops on
both the element state and the caller-supplied vectors, but
ConstraintsBiReset and ConstraintsFetch_react are not gated: they zero the
bias and overwrite the reaction force/torque regardless of activity. -/
theorem C5_activity_gate :
    ∀ (st : ChLinkDistance), st.active = false →
      ((∀ (off : ℕ) (R L : ChVectorDyn) (c : ℝ),
          st.IntLoadResidual_CqL off R L c = R) ∧
       (∀ (off : ℕ) (Qc : ChVectorDyn) (c : ℝ) (dc : Bool) (rc : ℝ),
          st.IntLoadConstraint_C off Qc c dc rc = Qc) ∧
       (∀ (off : ℕ) (L Qc : ChVectorDyn), st.IntToDescriptor off L Qc = st) ∧
       (∀ (off : ℕ) (L : ChVectorDyn), st.IntFromDescriptor off L = L) ∧
       (∀ (d : List ChConstraintTwoBodies), st.InjectConstraints d = d) ∧
       (∀ (f rc : ℝ) (dc : Bool), st.ConstraintsBiLoad_C f rc dc = st) ∧
       st.ConstraintsBiReset.Cx.b_i = 0 ∧
       (∀ (f : ℝ), (st.ConstraintsFetch_react f).react_force.x = -st.Cx.l_i * f ∧
                   (st.ConstraintsFetch_react f).react_torque = VNULL)) := by
  intro st h
  refine ⟨?_, ?_, ?_, ?_, ?_, ?_, rfl, ?_⟩
  · intro off R L c; simp [ChLinkDistance.IntLoadResidual_CqL, h]
  · intro off Qc c dc rc; simp [ChLinkDistance.IntLoadConstraint_C, h]
  · intro off L Qc; simp [ChLinkDistance.IntToDescriptor, h]
  · intro off L; simp [ChLinkDistance.IntFromDescriptor, h]
  · intro d; simp [ChLinkDistance.InjectConstraints, h]
  · intro f rc dc; simp [ChLinkDistance.ConstraintsBiLoad_C, h]
  · intro f; exact ⟨rfl, rfl⟩

/-- Witness for C5 at the concrete inactive state. -/
theorem C5_witness :
    inactiveSt.active = false ∧
    inactiveSt.InjectConstraints [] = [] ∧
    inactiveSt.IntLoadConstraint_C 0 (fun _ => 9) 1 true (1 / 2) = (fun _ => 9) ∧
    inactiveSt.ConstraintsBiReset.Cx.b_i = 0 := by
  refine ⟨rfl, ?_, ?_, ?_⟩
  · exact (C5_activity_gate inactiveSt rfl).2.2.2.2.1 []
  · exact (C5_activity_gate inactiveSt rfl).2.1 0 (fun _ => 9) 1 true (1 / 2)
  · exact (C5_activity_gate inactiveSt rfl).2.2.2.2.2.2.1

end ChronoSpec

namespace ChronoSpec

/-- Claim C4 is false on the code: Initialize performs no precondition
check.  With a null first body handle the code dereferences the null
pointer (Body1->Variables()), so no result — in particular no failure
result — is ever returned (modelled as none); and on the non-null path the
function unconditionally returns true (success), whatever the input. -/
theorem C4_counterexample :
    (sampleSt Mode.BILATERAL true 0 0 0 0).Initialize none (some body0)
      false VNULL VNULL true 0 Mode.BILATERAL = none ∧
    ((sampleSt Mode.BILATERAL true 0 0 0 0).InitializeCore body0 body0
      false VNULL VNULL true 0 Mode.BILATERAL).2 = true :=
  ⟨rfl, rfl⟩

/-- Claim C4 amended: Initialize validates nothing: with non-null body
handles it runs its body and always reports success (returns true); with a
null body handle it dereferences the null handle and never returns, so no
failure result is produced and the element may be left half-mutated. -/
theorem C4_no_validation :
    ∀ (st : ChLinkDistance) (b1 b2 : ChBodyFrame) (rel : Bool) (p1 p2 : ChVector)
      (auto : Bool) (md : ℝ) (m : Mode),
      (st.Initialize (some b1) (some b2) rel p1 p2 auto md m =
        some (st.InitializeCore b1 b2 rel p1 p2 auto md m)) ∧
      (st.InitializeCore b1 b2 rel p1 p2 auto md m).2 = true ∧
      (∀ b2o : Option ChBodyFrame, st.Initialize none b2o rel p1 p2 auto md m = none) ∧
      st.Initialize (some b1) none rel p1 p2 auto md m = none := by
  intro st b1 b2 rel p1 p2 auto md m
  refine ⟨rfl, rfl, fun b2o => ?_, rfl⟩
  cases b2o <;> rfl

/-- Concrete active element whose two world-frame anchors coincide and whose
previous Jacobian entries are 7. -/
def coincSt : ChLinkDistance := sampleSt Mode.BILATERAL true 0 0 0 7

/-- Claim C3 is false on the code: with coincident anchors (zero-length
separation), Update does not skip the Jacobian update — the previously
stored entry 7 is overwritten (here with 0, the value obtained from the
normalization fallback on the zero separation vector). -/
theorem C3_counterexample :
    coincSt.Body1.TransformPointLocalToParent coincSt.pos1 =
      coincSt.Body2.TransformPointLocalToParent coincSt.pos2 ∧
    coincSt.Cx.Cq_a 0 = 7 ∧
    (coincSt.Update 0).Cx.Cq_a 0 = 0 ∧
    ((7 : ℝ) ≠ 0) := by
  refine ⟨rfl, rfl, ?_, by norm_num⟩
  simp [coincSt, sampleSt, ChLinkDistance.Update, body0, bodyAt, VNULL,
        ChBodyFrame.TransformPointLocalToParent,
        ChBodyFrame.TransformDirectionParentToLocal,
        ChMatrix33.mul, ChMatrix33.tmul, ChVector.dot, ident33, Vnorm, Vcross,
        ChVector.Length, vec6, vadd_def, vsub_def, vneg_def, vsmul_def]

/-- Claim C3 amended: when the two world-frame anchors coincide, Update
still performs the Jacobian update (no skip): the current distance becomes
0, every one of the 12 Jacobian entries is overwritten with 0 (the
mode_sign multiple of the normalization fallback direction and of the
cross products it induces), and the violation is set to the well-defined
value mode_sign * (0 - distance). -/
theorem C3_update_not_skipped :
    ∀ (st : ChLinkDistance) (t : ℝ),
      st.Body1.TransformPointLocalToParent st.pos1 =
        st.Body2.TransformPointLocalToParent st.pos2 →
      ((st.Update t).curr_dist = 0 ∧
       (∀ k, (st.Update t).Cx.Cq_a k = 0) ∧
       (∀ k, (st.Update t).Cx.Cq_b k = 0) ∧
       (st.Update t).C = st.mode_sign * (0 - st.distance)) := by
  intro st t h
  have hz : st.Body1.TransformPointLocalToParent st.pos1 -
      st.Body2.TransformPointLocalToParent st.pos2 = (⟨0, 0, 0⟩ : ChVector) := by
    rw [h, vsub_def]
    simp
  have hnorm : Vnorm (⟨0, 0, 0⟩ : ChVector) = ⟨0, 0, 0⟩ := by
    simp [Vnorm, ChVector.Length, vsmul_def]
  refine ⟨?_, ?_, ?_, ?_⟩
  · simp [ChLinkDistance.Update, hz, ChVector.Length]
  · intro k
    simp [ChLinkDistance.Update, hz, hnorm,
          ChBodyFrame.TransformDirectionParentToLocal, ChMatrix33.tmul,
          Vcross, vec6, vadd_def, vneg_def, vsmul_def]
    fin_cases k <;> simp
    exact Or.inr rfl
  · intro k
    simp [ChLinkDistance.Update, hz, hnorm,
          ChBodyFrame.TransformDirectionParentToLocal, ChMatrix33.tmul,
          Vcross, vec6, vadd_def, vneg_def, vsmul_def]
    fin_cases k <;> simp
    exact Or.inr rfl
  · simp [ChLinkDistance.Update, hz, ChVector.Length]

/-- Witness for C3 at the concrete coincident-anchor state. -/
theorem C3_witness :
    (coincSt.Body1.TransformPointLocalToParent coincSt.pos1 =
      coincSt.Body2.TransformPointLocalToParent coincSt.pos2) ∧
    (coincSt.Update 0).curr_dist = 0 ∧
    (coincSt.Update 0).C = coincSt.mode_sign * (0 - coincSt.distance) :=
  ⟨rfl, (C3_update_not_skipped coincSt 0 rfl).1,
        (C3_update_not_skipped coincSt 0 rfl).2.2.2⟩

end ChronoSpec
